import Mathlib

/-!
Verification development for the sdlabs_wrapper repository.

The Python source (src/sdlabs_wrapper/models.py, wrapper.py, config.py) is
shallowly embedded below.  Numeric values are modelled as exact rationals
(the idealization of Python float arithmetic), Python `None` as `Option`,
Python truthiness by explicit `pyTruthy*` helpers, and raising constructors
by `Except`.  Each embedded definition is named after the source function it
models and follows its control flow line by line.
-/

/-- Python truthiness for an optional rational: `None` and `0.0` are falsy. -/
def pyTruthyQ : Option ℚ → Bool
  | none => false
  | some x => decide (x ≠ 0)

/-- Python truthiness for an optional string: `None` and the empty string are falsy. -/
def pyTruthyStr : Option String → Bool
  | none => false
  | some s => decide (s ≠ "")

/-- Python truthiness for an optional natural number: `None` and `0` are falsy. -/
def pyTruthyN : Option ℕ → Bool
  | none => false
  | some n => decide (n ≠ 0)

/-- Python `a or b` on optional rationals: returns `a` when truthy, else `b`. -/
def pyOrQ (a b : Option ℚ) : Option ℚ :=
  if pyTruthyQ a then a else b

/-- Round a rational to the nearest integer, ties to even: the rounding mode of
the Python built-in `round`. -/
def roundHalfEven (x : ℚ) : ℤ :=
  let n := ⌊x⌋
  let r := x - n
  if r < 1/2 then n
  else if 1/2 < r then n + 1
  else if n % 2 = 0 then n else n + 1

/-- Model of the Python built-in `round(x, ndigits)` for `ndigits ≥ 0`:
round `x` to `ndigits` decimal places, ties to even. -/
def pyRound (x : ℚ) (ndigits : ℕ) : ℚ :=
  (roundHalfEven (x * 10 ^ ndigits) : ℚ) / 10 ^ ndigits

/-- Descriptor of one categorical option (models.Descriptor), with its
properties flattened to key/value pairs. -/
structure Descriptor where
  category : String
  properties : Option (List (String × ℚ)) := none
deriving DecidableEq

/-- Model of models.Parameter: one optimizable variable.  Numeric fields are
optional rationals, mirroring the dataclass's `None` defaults. -/
structure Parameter where
  name : Option String := none
  type : String := "continuous"
  high_value : Option ℚ := none
  low_value : Option ℚ := none
  stride : Option ℚ := none
  description : Option String := none
  descriptors : Option (List Descriptor) := none
deriving DecidableEq

/-- Model of `Parameter.find_exp`: `floor(log10(abs(number)))`.  `Int.log 10`
is exactly the floor of the base-10 logarithm on positive rationals.  Python
raises on `number = 0`; there `Int.log` takes the junk value `0`, and every
theorem below restricts to nonzero bounds. -/
def find_exp (number : ℚ) : ℤ :=
  Int.log 10 |number|

/-- Defining bound used by `Parameter._base_10_exponent`: the Python
expression `self.low_value or self.stride or self.high_value` under Python
truthiness (`None` and `0.0` falsy, the last operand returned as-is). -/
def Parameter.definingBound (p : Parameter) : Option ℚ :=
  pyOrQ p.low_value (pyOrQ p.stride p.high_value)

/-- Model of the `Parameter._base_10_exponent` property: `None` for
categorical parameters; otherwise let `e = find_exp` of the defining bound and
return `abs(e)` when `e < -4`, else `None`.  When the defining bound is
missing Python raises a TypeError; here the result is `none` and the theorems
below never rely on that case. -/
def Parameter.base10Exponent (p : Parameter) : Option ℕ :=
  if p.type = "categorical" then none
  else
    match p.definingBound with
    | none => none
    | some b => if find_exp b < -4 then some (find_exp b).natAbs else none

/-- Model of `Parameter.rescale_units_to_sdlabs`: identity for categorical
parameters and when `_base_10_exponent` is falsy (`None`, or `0` which cannot
occur); otherwise `round(val * 10 ** exponent, 2)`. -/
def Parameter.rescale_units_to_sdlabs (p : Parameter) (val : ℚ) : ℚ :=
  if p.type = "categorical" then val
  else
    match p.base10Exponent with
    | none => val
    | some k => if k = 0 then val else pyRound (val * 10 ^ k) 2

/-- Model of `Parameter.rescale_units_to_user`: identity for categorical
parameters; otherwise cast to float (identity here), then when
`_base_10_exponent` is truthy divide by `10 ** exponent` and round to
`exponent + 2` decimal places. -/
def Parameter.rescale_units_to_user (p : Parameter) (val : ℚ) : ℚ :=
  if p.type = "categorical" then val
  else
    match p.base10Exponent with
    | none => val
    | some k => if k = 0 then val else pyRound (val / 10 ^ k) (k + 2)

/-- Model of `Parameter.format_sdlabs_description`: append the rescaling
suffix when a truthy scale exponent applies. -/
def Parameter.format_sdlabs_description (p : Parameter) : Option String :=
  if pyTruthyN p.base10Exponent then
    some ((p.description.getD "") ++ " in base units * 10^(-" ++
      toString (p.base10Exponent.getD 0) ++ ")")
  else p.description

/- Helper lemmas about rounding. -/

theorem roundHalfEven_intCast (z : ℤ) : roundHalfEven (z : ℚ) = z := by
  unfold roundHalfEven
  have h : ((z : ℚ)) - ⌊(z : ℚ)⌋ = 0 := by
    rw [Int.floor_intCast]; ring
  simp only [Int.floor_intCast, h]
  norm_num

theorem pyRound_int_div (z : ℤ) (n : ℕ) :
    pyRound ((z : ℚ) / 10 ^ n) n = (z : ℚ) / 10 ^ n := by
  unfold pyRound
  have hn : ((10 : ℚ) ^ n) ≠ 0 := pow_ne_zero _ (by norm_num)
  rw [div_mul_cancel₀ _ hn, roundHalfEven_intCast]

/-- Composing the two rescaling roundings collapses to a single rounding at
`k + 2` decimal places. -/
theorem pyRound_rescale_comp (k : ℕ) (v : ℚ) :
    pyRound (pyRound (v * 10 ^ k) 2 / 10 ^ k) (k + 2) = pyRound v (k + 2) := by
  have harg : v * 10 ^ k * 10 ^ (2 : ℕ) = v * 10 ^ (k + 2) := by
    rw [pow_add]; ring
  have hinner :
      pyRound (v * 10 ^ k) 2 / 10 ^ k =
        (roundHalfEven (v * 10 ^ (k + 2)) : ℚ) / 10 ^ (k + 2) := by
    unfold pyRound
    rw [harg, div_div, ← pow_add, Nat.add_comm 2 k]
  rw [hinner, pyRound_int_div]
  rfl

theorem base10Exponent_ge_five (p : Parameter) (k : ℕ)
    (h : p.base10Exponent = some k) : 5 ≤ k := by
  unfold Parameter.base10Exponent at h
  split at h
  · exact absurd h (by simp)
  · split at h
    · exact absurd h (by simp)
    · split at h
      · rename_i b hbeq hlt
        have hk : (find_exp b).natAbs = k := by injection h
        omega
      · exact absurd h (by simp)

theorem base10Exponent_none_of_categorical (p : Parameter)
    (h : p.type = "categorical") : p.base10Exponent = none := by
  unfold Parameter.base10Exponent
  rw [if_pos h]

theorem base10Exponent_eq (p : Parameter) (b : ℚ) (hc : p.type ≠ "categorical")
    (hb : p.definingBound = some b) :
    p.base10Exponent = if find_exp b < -4 then some (find_exp b).natAbs else none := by
  unfold Parameter.base10Exponent
  rw [if_neg hc, hb]

theorem rescale_sdlabs_of_exponent (p : Parameter) (k : ℕ)
    (hcat : p.type ≠ "categorical") (hk : p.base10Exponent = some k) (hk0 : k ≠ 0)
    (v : ℚ) : p.rescale_units_to_sdlabs v = pyRound (v * 10 ^ k) 2 := by
  unfold Parameter.rescale_units_to_sdlabs
  rw [if_neg hcat, hk]
  show (if k = 0 then v else pyRound (v * 10 ^ k) 2) = pyRound (v * 10 ^ k) 2
  rw [if_neg hk0]

theorem rescale_user_of_exponent (p : Parameter) (k : ℕ)
    (hcat : p.type ≠ "categorical") (hk : p.base10Exponent = some k) (hk0 : k ≠ 0)
    (v : ℚ) : p.rescale_units_to_user v = pyRound (v / 10 ^ k) (k + 2) := by
  unfold Parameter.rescale_units_to_user
  rw [if_neg hcat, hk]
  show (if k = 0 then v else pyRound (v / 10 ^ k) (k + 2)) = pyRound (v / 10 ^ k) (k + 2)
  rw [if_neg hk0]

theorem rescale_sdlabs_of_none (p : Parameter) (hk : p.base10Exponent = none)
    (v : ℚ) : p.rescale_units_to_sdlabs v = v := by
  unfold Parameter.rescale_units_to_sdlabs
  by_cases hc : p.type = "categorical"
  · rw [if_pos hc]
  · rw [if_neg hc, hk]

theorem rescale_user_of_none (p : Parameter) (hk : p.base10Exponent = none)
    (v : ℚ) : p.rescale_units_to_user v = v := by
  unfold Parameter.rescale_units_to_user
  by_cases hc : p.type = "categorical"
  · rw [if_pos hc]
  · rw [if_neg hc, hk]

theorem rescale_sdlabs_categorical (p : Parameter) (hc : p.type = "categorical")
    (v : ℚ) : p.rescale_units_to_sdlabs v = v := by
  unfold Parameter.rescale_units_to_sdlabs
  rw [if_pos hc]

theorem rescale_user_categorical (p : Parameter) (hc : p.type = "categorical")
    (v : ℚ) : p.rescale_units_to_user v = v := by
  unfold Parameter.rescale_units_to_user
  rw [if_pos hc]

theorem find_exp_ten_zpow (z : ℤ) : find_exp (((10 : ℕ) : ℚ) ^ z) = z := by
  unfold find_exp
  rw [abs_of_pos (by positivity), Int.log_zpow (by norm_num)]

/-- Continuous parameter with low 0.001 and high 0.01: the example named in
the spec (its defining bound has floor log10 equal to -3). -/
def cParamMilli : Parameter :=
  { type := "continuous", low_value := some (1/1000), high_value := some (1/100) }

/-- Continuous parameter with low 0.00001: its defining bound has floor log10
equal to -5, below the threshold of the source code. -/
def cParamMicro : Parameter :=
  { type := "continuous", low_value := some (1/100000), high_value := some (1/10000) }

/-- Categorical parameter used as a concrete instance. -/
def cParamCat : Parameter := { name := some "solvent", type := "categorical" }

/-- Continuous parameter with low 5 and high 50: defining bound magnitude at
least one. -/
def cParamBig : Parameter :=
  { type := "continuous", low_value := some 5, high_value := some 50 }

theorem cParamMilli_definingBound : cParamMilli.definingBound = some (1/1000) := by
  norm_num [cParamMilli, Parameter.definingBound, pyOrQ, pyTruthyQ]

theorem cParamMicro_definingBound : cParamMicro.definingBound = some (1/100000) := by
  norm_num [cParamMicro, Parameter.definingBound, pyOrQ, pyTruthyQ]

theorem cParamBig_definingBound : cParamBig.definingBound = some 5 := by
  norm_num [cParamBig, Parameter.definingBound, pyOrQ, pyTruthyQ]

theorem find_exp_milli : find_exp (1/1000) = -3 := by
  have h : ((1:ℚ)/1000) = ((10 : ℕ) : ℚ) ^ (-3 : ℤ) := by norm_num
  rw [h, find_exp_ten_zpow]

theorem find_exp_micro : find_exp (1/100000) = -5 := by
  have h : ((1:ℚ)/100000) = ((10 : ℕ) : ℚ) ^ (-5 : ℤ) := by norm_num
  rw [h, find_exp_ten_zpow]

theorem cParamMilli_base10Exponent : cParamMilli.base10Exponent = none := by
  rw [base10Exponent_eq cParamMilli (1/1000) (by decide) cParamMilli_definingBound,
    find_exp_milli]
  norm_num

theorem cParamMicro_base10Exponent : cParamMicro.base10Exponent = some 5 := by
  rw [base10Exponent_eq cParamMicro (1/100000) (by decide) cParamMicro_definingBound,
    find_exp_micro]
  norm_num

/-- C1, counterexample.  The claim asserts that a continuous parameter with
low 0.001 (so floor log10 of the bound is -3, k = 3) gets scale exponent 3
and remote-stored low equal to 1.0.  In the code the threshold is
`exponent < -4`, so this parameter gets no scale exponent and its values are
stored unchanged: the low bound stays 0.001, not 1.0. -/
theorem c1_counterexample :
    cParamMilli.base10Exponent ≠ some 3 ∧
    cParamMilli.rescale_units_to_sdlabs (1/1000) = 1/1000 ∧
    ((1 : ℚ)/1000) ≠ 1 := by
  refine ⟨?_, rescale_sdlabs_of_none _ cParamMilli_base10Exponent _, by norm_num⟩
  rw [cParamMilli_base10Exponent]
  simp

/-- C1, amended.  For a non-categorical parameter whose defining bound `b`
satisfies `floor(log10(|b|)) = -k`, the derived scale exponent is `k` and
`to_service_units(v) = round(v * 10^k, 2)` exactly when `k ≥ 5` (the code
threshold is `exponent < -4`); for `1 ≤ k ≤ 4` the scale exponent is `None`
and `to_service_units` is the identity. -/
theorem c1_scale_exponent_threshold (p : Parameter) (b : ℚ) (k : ℕ)
    (hcat : p.type ≠ "categorical")
    (hb : p.definingBound = some b)
    (hexp : find_exp b = -(k : ℤ)) :
    (5 ≤ k → p.base10Exponent = some k ∧
      ∀ v : ℚ, p.rescale_units_to_sdlabs v = pyRound (v * 10 ^ k) 2) ∧
    (1 ≤ k → k ≤ 4 → p.base10Exponent = none ∧
      ∀ v : ℚ, p.rescale_units_to_sdlabs v = v) := by
  have hbase := base10Exponent_eq p b hcat hb
  constructor
  · intro h5
    have hlt : find_exp b < -4 := by rw [hexp]; omega
    have habs : (find_exp b).natAbs = k := by rw [hexp]; omega
    have hsome : p.base10Exponent = some k := by rw [hbase, if_pos hlt, habs]
    exact ⟨hsome, fun v =>
      rescale_sdlabs_of_exponent p k hcat hsome (by omega) v⟩
  · intro h1 h4
    have hge : ¬ find_exp b < -4 := by rw [hexp]; omega
    have hnone : p.base10Exponent = none := by rw [hbase, if_neg hge]
    exact ⟨hnone, fun v => rescale_sdlabs_of_none p hnone v⟩

/-- C1, witness: a parameter with low 0.00001 (k = 5) gets scale exponent 5
and its rescaling multiplies by 10^5 and rounds to 2 decimals. -/
theorem c1_witness :
    cParamMicro.base10Exponent = some 5 ∧
    cParamMicro.rescale_units_to_sdlabs (1/100000) = 1 := by
  have h := (c1_scale_exponent_threshold cParamMicro (1/100000) 5 (by decide)
    cParamMicro_definingBound (by rw [find_exp_micro]; norm_num)).1 (by norm_num)
  refine ⟨h.1, ?_⟩
  rw [h.2 (1/100000)]
  norm_num [pyRound, roundHalfEven]

/-- C4.  For a non-categorical parameter carrying a scale exponent `k`, the
round trip `to_user_units (to_service_units v)` equals `v` rounded at `k + 2`
decimal places; in particular it returns `v` itself whenever `v` is
representable at that precision.  Exact equality for arbitrary `v` is not
claimed. -/
theorem c4_round_trip (p : Parameter) (k : ℕ)
    (hk : p.base10Exponent = some k) (v : ℚ) :
    p.rescale_units_to_user (p.rescale_units_to_sdlabs v) = pyRound v (k + 2) ∧
    (∀ m : ℤ, v = (m : ℚ) / 10 ^ (k + 2) →
      p.rescale_units_to_user (p.rescale_units_to_sdlabs v) = v) := by
  have h5 := base10Exponent_ge_five p k hk
  have hk0 : k ≠ 0 := by omega
  have hcat : p.type ≠ "categorical" := by
    intro hc
    rw [base10Exponent_none_of_categorical p hc] at hk
    exact absurd hk (by simp)
  have h1 : p.rescale_units_to_sdlabs v = pyRound (v * 10 ^ k) 2 :=
    rescale_sdlabs_of_exponent p k hcat hk hk0 v
  have h2 : p.rescale_units_to_user (pyRound (v * 10 ^ k) 2) =
      pyRound (pyRound (v * 10 ^ k) 2 / 10 ^ k) (k + 2) :=
    rescale_user_of_exponent p k hcat hk hk0 _
  constructor
  · rw [h1, h2, pyRound_rescale_comp]
  · intro m hm
    rw [h1, h2, pyRound_rescale_comp, hm, pyRound_int_div]

/-- C4, witness: the round trip on the k = 5 parameter returns the input
exactly for a value representable at 7 decimal places. -/
theorem c4_witness :
    cParamMicro.rescale_units_to_user
      (cParamMicro.rescale_units_to_sdlabs ((123 : ℚ) / 10 ^ 7)) = (123 : ℚ) / 10 ^ 7 :=
  (c4_round_trip cParamMicro 5 cParamMicro_base10Exponent _).2 123 (by norm_num)

/-- C5.  Both rescale functions are the identity whenever no scale exponent
applies: for every categorical parameter and every value, and for every
non-categorical parameter whose nonzero defining bound has
`floor(log10(|b|)) ≥ 0` (so the scale exponent is `None`). -/
theorem c5_identity_without_exponent (p : Parameter) (v : ℚ) :
    (p.type = "categorical" →
      p.rescale_units_to_sdlabs v = v ∧ p.rescale_units_to_user v = v) ∧
    (∀ b : ℚ, p.type ≠ "categorical" → p.definingBound = some b → b ≠ 0 →
      0 ≤ find_exp b →
      p.base10Exponent = none ∧
      p.rescale_units_to_sdlabs v = v ∧ p.rescale_units_to_user v = v) := by
  constructor
  · intro hc
    exact ⟨rescale_sdlabs_categorical p hc v, rescale_user_categorical p hc v⟩
  · intro b hc hb hb0 hge
    have hnone : p.base10Exponent = none := by
      rw [base10Exponent_eq p b hc hb, if_neg (by omega)]
    exact ⟨hnone, rescale_sdlabs_of_none p hnone v, rescale_user_of_none p hnone v⟩

/-- C5, witness: identity on a categorical parameter and on a parameter with
low 5. -/
theorem c5_witness :
    (cParamCat.rescale_units_to_sdlabs 7 = 7 ∧ cParamCat.rescale_units_to_user 7 = 7) ∧
    (cParamBig.base10Exponent = none ∧
      cParamBig.rescale_units_to_sdlabs (3/2) = 3/2 ∧
      cParamBig.rescale_units_to_user (3/2) = 3/2) := by
  constructor
  · exact (c5_identity_without_exponent cParamCat 7).1 (by decide)
  · refine (c5_identity_without_exponent cParamBig (3/2)).2 5 (by decide)
      cParamBig_definingBound (by norm_num) ?_
    unfold find_exp
    rw [Int.log_of_one_le_right _ (by norm_num : (1:ℚ) ≤ |5|)]
    exact Int.natCast_nonneg _

/-- Model of models.MultiObjectiveConfiguration: the four dataclass fields.
The metadata bounds (minimum, maximum) are documentation for the JSON schema
and are not enforced by the constructor. -/
structure MultiObjectiveConfiguration where
  hierarchy : ℤ := 0
  relative : Option ℚ := none
  absolute : Option ℚ := none
  weight : Option ℚ := none
deriving DecidableEq

/-- Constructor model for MultiObjectiveConfiguration.  The dataclass init
stores the fields and then runs a post-init hook whose body in the source is
`pass`, so no validation happens and the constructor can never raise; the
`Except` codomain models a possibly raising Python call. -/
def mkMultiObjectiveConfiguration (hierarchy : ℤ)
    (relative absolute weight : Option ℚ) :
    Except String MultiObjectiveConfiguration :=
  Except.ok
    { hierarchy := hierarchy, relative := relative,
      absolute := absolute, weight := weight }

/-- C2, counterexample.  The claim says constructing with both `relative` and
`absolute` set fails, and constructing with neither set also fails.  In the
code the post-init hook is `pass`: both constructions succeed. -/
theorem c2_counterexample :
    (mkMultiObjectiveConfiguration 0 (some 50) (some 1) none).isOk = true ∧
    (mkMultiObjectiveConfiguration 0 none none none).isOk = true :=
  ⟨rfl, rfl⟩

/-- C2, amended.  Construction of a MultiObjectiveConfiguration always
succeeds and stores the given fields unchanged, whatever combination of
`relative` and `absolute` is supplied: the post-init hook performs no
validation. -/
theorem c2_construction_always_succeeds (h : ℤ) (r a w : Option ℚ) :
    mkMultiObjectiveConfiguration h r a w =
      Except.ok { hierarchy := h, relative := r, absolute := a, weight := w } :=
  rfl

/-- Dynamically typed Python value appearing inside constraint bounds:
either a number or a string. -/
inductive PyVal where
  | num (q : ℚ)
  | str (s : String)
deriving DecidableEq

/-- Python `str()` applied to a bound value.  For a string it is the identity;
for a number the exact decimal rendering is irrelevant to the claims and is
modelled by the standard rational rendering. -/
def pyValStr : PyVal → String
  | PyVal.num q => toString q
  | PyVal.str s => s

/-- Whether a dynamically typed value is a string. -/
def PyVal.isStr : PyVal → Bool
  | PyVal.str _ => true
  | PyVal.num _ => false

/-- Model of models.ConstraintDefinition after construction. -/
structure ConstraintDefinition where
  parameter : String
  bounds : Option (List (List PyVal)) := none
  weight : Option ℚ := none
deriving DecidableEq

/-- Constructor model for ConstraintDefinition: the post-init hook casts all
bounds to strings when the bounds list is truthy (present and non-empty). -/
def mkConstraintDefinition (parameter : String)
    (bounds : Option (List (List PyVal))) (weight : Option ℚ) :
    ConstraintDefinition :=
  { parameter := parameter
    weight := weight
    bounds :=
      match bounds with
      | none => none
      | some bs =>
          if bs.isEmpty then some bs
          else some (bs.map (fun boundList =>
            boundList.map (fun bound => PyVal.str (pyValStr bound)))) }

/-- Every bound value of a constructed ConstraintDefinition is a string. -/
def boundsAllStrings (c : ConstraintDefinition) : Bool :=
  match c.bounds with
  | none => true
  | some bs => bs.all (fun boundList => boundList.all PyVal.isStr)

/-- C9.  For every ConstraintDefinition constructed with a non-empty bounds
list, every bound value inside every bound sub-list of the constructed object
is a string, whether the input bound was numeric or already a string. -/
theorem c9_bounds_serialized_as_strings (parameter : String)
    (weight : Option ℚ) (hd : List PyVal) (tl : List (List PyVal)) :
    boundsAllStrings
      (mkConstraintDefinition parameter (some (hd :: tl)) weight) = true := by
  unfold mkConstraintDefinition boundsAllStrings
  simp [List.all_eq_true, PyVal.isStr]

/-- Model of models.Objective: name, goal, optional multi-objective
configuration, optional target.  The goal enum is carried as its string
value. -/
structure Objective where
  name : String
  goal : String := "max"
  multi_objective_configuration : Option MultiObjectiveConfiguration := none
  target : Option ℚ := none
deriving DecidableEq

/-- Model of models.Constraint after construction. -/
structure Constraint where
  definitions : List ConstraintDefinition := []
  targets : List ℚ := []
  name : Option String := none
  type : String := "linear_eq"
deriving DecidableEq

/-- Presence of the `api_key` key in a supplied configuration mapping:
absent, or present with an optional string value. -/
inductive ApiKeyField where
  | absent
  | present (value : Option String)
deriving DecidableEq

/-- Raw configuration mapping (a JSON object) supplied either in memory or as
file contents.  Fields mirror the keyword arguments of OptimizationConfig;
a `none` field is an absent key, filled from the dataclass default. -/
structure SpecMapping where
  api_key : ApiKeyField := ApiKeyField.absent
  parameters : Option (List Parameter) := none
  objectives : Option (List Objective) := none
  optimization_name : Option String := none
  description : Option String := none
  sdlabs_group_id : Option String := none
  constraints : Option (List Constraint) := none
  multi_objective_function : Option String := none
  algorithm : Option String := none
  batch_size : Option ℤ := none
  budget : Option ℤ := none
  random_seed : Option ℤ := none
  always_restart : Option Bool := none
  inherit_data : Option Bool := none
deriving DecidableEq

/-- Model of models.OptimizationConfig after construction.  The optional
list fields of the dataclass default to `None`; they are modelled as lists
with `[]` for `None`, which has the same Python truthiness. -/
structure OptimizationConfig where
  parameters : List Parameter := []
  objectives : List Objective := []
  optimization_name : String := "SampleOptimization"
  description : Option String := none
  api_key : Option String := none
  sdlabs_group_id : String := "Atinary"
  constraints : List Constraint := []
  multi_objective_function : Option String := none
  algorithm : String := "edboplus"
  batch_size : ℤ := 1
  budget : ℤ := 20
  random_seed : ℤ := 2022
  always_restart : Bool := false
  inherit_data : Bool := false
deriving DecidableEq

/-- Constructor model for OptimizationConfig.  `env` is the value of the
SDLABS_API_KEY environment variable.  When a mapping is supplied (in memory
or loaded from a file), the post-init hook re-enters the constructor with the
merged keyword arguments `{api_key: self.api_key, **json_obj}`: a later key
wins in a Python dict literal, so an `api_key` field present in the mapping
overrides the explicit argument.  The second pass (no mapping) falls back to
the environment variable when the held api_key is falsy. -/
def mkOptimizationConfig (env : Option String) (api_key : Option String)
    (content : Option SpecMapping) : OptimizationConfig :=
  match content with
  | some m =>
      let mergedKey : Option String :=
        match m.api_key with
        | ApiKeyField.present v => v
        | ApiKeyField.absent => api_key
      { parameters := m.parameters.getD []
        objectives := m.objectives.getD []
        optimization_name := m.optimization_name.getD "SampleOptimization"
        description := m.description
        api_key := if pyTruthyStr mergedKey then mergedKey else env
        sdlabs_group_id := m.sdlabs_group_id.getD "Atinary"
        constraints := m.constraints.getD []
        multi_objective_function := m.multi_objective_function
        algorithm := m.algorithm.getD "edboplus"
        batch_size := m.batch_size.getD 1
        budget := m.budget.getD 20
        random_seed := m.random_seed.getD 2022
        always_restart := m.always_restart.getD false
        inherit_data := m.inherit_data.getD false }
  | none =>
      { api_key := if pyTruthyStr api_key then api_key else env }

/-- Concrete mapping whose api_key field holds the value "mapkey". -/
def c3Mapping : SpecMapping := { api_key := ApiKeyField.present (some "mapkey") }

/-- C3, counterexample.  The claim says an explicit non-empty api_key
argument always wins.  In the code the merged dict `{api_key: self.api_key,
**json_obj}` lets the mapping field override the argument: with argument
"argkey" and mapping field "mapkey" the built api_key is "mapkey". -/
theorem c3_counterexample :
    (mkOptimizationConfig none (some "argkey") (some c3Mapping)).api_key
        = some "mapkey" ∧
    (mkOptimizationConfig none (some "argkey") (some c3Mapping)).api_key
        ≠ some "argkey" :=
  ⟨rfl, by decide⟩

/-- C3, amended.  The api_key resolution precedence is: a truthy api_key
field already present in the mapping wins first (overriding any explicit
argument); the explicit argument is used only when the mapping is absent or
lacks the field; the environment variable is the fallback whenever the value
selected by the merge is falsy (absent, None, or empty). -/
theorem c3_api_key_precedence (env argKey : Option String) (m : SpecMapping) :
    (∀ v : Option String, m.api_key = ApiKeyField.present v →
      pyTruthyStr v = true →
      (mkOptimizationConfig env argKey (some m)).api_key = v) ∧
    (m.api_key = ApiKeyField.absent → pyTruthyStr argKey = true →
      (mkOptimizationConfig env argKey (some m)).api_key = argKey) ∧
    (pyTruthyStr argKey = true →
      (mkOptimizationConfig env argKey none).api_key = argKey) ∧
    (m.api_key = ApiKeyField.absent → pyTruthyStr argKey = false →
      (mkOptimizationConfig env argKey (some m)).api_key = env) ∧
    (∀ v : Option String, m.api_key = ApiKeyField.present v →
      pyTruthyStr v = false →
      (mkOptimizationConfig env argKey (some m)).api_key = env) := by
  refine ⟨?_, ?_, ?_, ?_, ?_⟩
  · intro v hv htruthy
    simp [mkOptimizationConfig, hv, htruthy]
  · intro hv htruthy
    simp [mkOptimizationConfig, hv, htruthy]
  · intro htruthy
    simp [mkOptimizationConfig, htruthy]
  · intro hv htruthy
    simp [mkOptimizationConfig, hv, htruthy]
  · intro v hv htruthy
    simp [mkOptimizationConfig, hv, htruthy]

/-- C3, witness: each precedence rule applied at concrete inputs. -/
theorem c3_witness :
    (mkOptimizationConfig (some "envkey") (some "argkey")
        (some c3Mapping)).api_key = some "mapkey" ∧
    (mkOptimizationConfig (some "envkey") (some "argkey")
        (some { })).api_key = some "argkey" ∧
    (mkOptimizationConfig (some "envkey") none
        (some { })).api_key = some "envkey" := by
  refine ⟨?_, ?_, ?_⟩
  · exact (c3_api_key_precedence (some "envkey") (some "argkey") c3Mapping).1
      (some "mapkey") rfl (by decide)
  · exact (c3_api_key_precedence (some "envkey") (some "argkey") { }).2.1
      rfl (by decide)
  · exact (c3_api_key_precedence (some "envkey") none { }).2.2.2.1 rfl rfl

/-- Default configuration path of config.py (resolution to an absolute path
is irrelevant to the claims). -/
def DEFAULT_CONFIG_PATH : String := "config/optimization_config.json"

/-- Model of config.init.  `files` is the file system (path to parsed JSON
mapping, `none` when opening or parsing raises), `env` the environment
variable, `cfg` the module-level CFG global before the call.  Returns the
call result (`Except` models a raising call) together with the CFG global
after the call.  When CFG is already set the arguments are ignored and the
cached instance is returned; a failed build leaves CFG unset. -/
def cfgInit (files : String → Option SpecMapping) (env : Option String)
    (cfg : Option OptimizationConfig) (config_path : Option String)
    (config_dict : Option SpecMapping) (api_key : Option String) :
    Except String OptimizationConfig × Option OptimizationConfig :=
  match cfg with
  | some c => (Except.ok c, some c)
  | none =>
      match config_dict with
      | some m =>
          let c := mkOptimizationConfig env api_key (some m)
          (Except.ok c, some c)
      | none =>
          let path :=
            if pyTruthyStr config_path then config_path.getD ""
            else DEFAULT_CONFIG_PATH
          match files path with
          | none => (Except.error ("No such file or directory: " ++ path), none)
          | some m =>
              let c := mkOptimizationConfig env api_key (some m)
              (Except.ok c, some c)

/-- C8.  The configuration is a process-wide singleton: a call made while the
cached instance exists returns that instance unchanged whatever the
arguments, and after a first successful build every later call returns the
first instance. -/
theorem c8_config_singleton (files : String → Option SpecMapping)
    (env : Option String) (c : OptimizationConfig) (p : Option String)
    (d : Option SpecMapping) (k : Option String) :
    cfgInit files env (some c) p d k = (Except.ok c, some c) ∧
    (∀ p1 d1 k1 c1, (cfgInit files env none p1 d1 k1).1 = Except.ok c1 →
      ∀ p2 d2 k2,
        cfgInit files env (cfgInit files env none p1 d1 k1).2 p2 d2 k2 =
          (Except.ok c1, some c1)) := by
  constructor
  · rfl
  · intro p1 d1 k1 c1 hok p2 d2 k2
    have hstate : (cfgInit files env none p1 d1 k1).2 = some c1 := by
      rcases d1 with _ | m
      · rcases hf : files (if pyTruthyStr p1 then p1.getD "" else DEFAULT_CONFIG_PATH)
          with _ | m2
        · simp [cfgInit, hf] at hok
        · simp only [cfgInit, hf] at hok ⊢
          simp at hok
          rw [hok]
      · simp only [cfgInit] at hok ⊢
        simp at hok
        rw [hok]
    rw [hstate]
    rfl

/-- C8, witness: with a cached instance present, a second call with different
arguments returns the cached instance; the two-call composition applied at
concrete arguments. -/
theorem c8_witness :
    cfgInit (fun _ => none) none (some { }) (some "other/path.json")
        (some c3Mapping) (some "newkey") = (Except.ok { }, some { }) ∧
    cfgInit (fun _ => none) none
        ((cfgInit (fun _ => none) none none none (some { }) none).2)
        (some "p2.json") none (some "k2") =
      (Except.ok (mkOptimizationConfig none none (some { })),
        some (mkOptimizationConfig none none (some { }))) := by
  constructor
  · exact (c8_config_singleton (fun _ => none) none { } (some "other/path.json")
      (some c3Mapping) (some "newkey")).1
  · exact (c8_config_singleton (fun _ => none) none { } none none none).2
      none (some { }) none (mkOptimizationConfig none none (some { })) rfl
      (some "p2.json") none (some "k2")

/-- Python `a or b` where `a` is an optional boolean argument (None, True or
False) and `b` a boolean: returns `a` when truthy (that is, `a = some true`),
else `b`. -/
def pyOrBool (a : Option Bool) (b : Bool) : Bool :=
  match a with
  | some true => true
  | some false => b
  | none => b

/-- Flag-merge step of wrapper.initialize_optimization, applied to the cached
configuration returned by config.init:
`cfg.inherit_data = inherit_data or cfg.inherit_data` and
`cfg.always_restart = always_restart or cfg.always_restart`. -/
def applyFlagOverrides (cfg : OptimizationConfig)
    (inherit_data always_restart : Option Bool) : OptimizationConfig :=
  { cfg with
    inherit_data := pyOrBool inherit_data cfg.inherit_data
    always_restart := pyOrBool always_restart cfg.always_restart }

/-- Configuration phase of wrapper.initialize_optimization: build or fetch
the cached configuration via config.init, then merge the two flag arguments
into it by Python `or`.  The merge mutates the cached instance, so the CFG
global afterwards holds the merged configuration. -/
def initializeOptimizationConfigPhase (files : String → Option SpecMapping)
    (env : Option String) (cfg : Option OptimizationConfig)
    (api_key : Option String) (spec_file_path : Option String)
    (spec_file_content : Option SpecMapping)
    (inherit_data always_restart : Option Bool) :
    Except String OptimizationConfig × Option OptimizationConfig :=
  match cfgInit files env cfg spec_file_path spec_file_content api_key with
  | (Except.ok c, _) =>
      let merged := applyFlagOverrides c inherit_data always_restart
      (Except.ok merged, some merged)
  | (Except.error e, st) => (Except.error e, st)

/-- C10.  The inherit_data and always_restart arguments are merged into the
cached configuration by boolean or: the flag ends up true exactly when the
argument is literally True or the cached flag was already true, so a falsy
argument (None or False) can never lower a flag that is already set. -/
theorem c10_flags_merged_by_or (cfg : OptimizationConfig)
    (i a : Option Bool) :
    ((applyFlagOverrides cfg i a).inherit_data
        = (decide (i = some true) || cfg.inherit_data)) ∧
    ((applyFlagOverrides cfg i a).always_restart
        = (decide (a = some true) || cfg.always_restart)) ∧
    (cfg.inherit_data = true → (applyFlagOverrides cfg i a).inherit_data = true) ∧
    (cfg.always_restart = true → (applyFlagOverrides cfg i a).always_restart = true) ∧
    (∀ files env c0 k p d,
      (initializeOptimizationConfigPhase files env (some c0) k p d i a).1
        = Except.ok (applyFlagOverrides c0 i a)) := by
  have hmerge : ∀ (x : Option Bool) (b : Bool),
      pyOrBool x b = (decide (x = some true) || b) := by
    intro x b
    rcases x with _ | x
    · rfl
    · cases x <;> rfl
  refine ⟨?_, ?_, ?_, ?_, ?_⟩
  · simp [applyFlagOverrides, hmerge]
  · simp [applyFlagOverrides, hmerge]
  · intro h
    simp [applyFlagOverrides, hmerge, h]
  · intro h
    simp [applyFlagOverrides, hmerge, h]
  · intro files env c0 k p d
    rfl

/-- C10, witness: passing inherit_data = False and always_restart = None
leaves flags that are already true set. -/
theorem c10_witness :
    (applyFlagOverrides { inherit_data := true, always_restart := true }
        (some false) none).inherit_data = true ∧
    (applyFlagOverrides { inherit_data := true, always_restart := true }
        (some false) none).always_restart = true :=
  ⟨(c10_flags_merged_by_or { inherit_data := true, always_restart := true }
      (some false) none).2.2.1 rfl,
    (c10_flags_merged_by_or { inherit_data := true, always_restart := true }
      (some false) none).2.2.2.1 rfl⟩

/-- One observable side effect of the polling loop of
`SDLabsWrapper._get_parameters`: a call to the latest-parameters endpoint, or
a fixed-duration sleep. -/
inductive PollEvent where
  | pollCall (attempt : ℕ)
  | sleepDelay (seconds : ℚ)
deriving DecidableEq

/-- Model of the retry loop of `SDLabsWrapper._get_parameters`.  `service`
gives the remote result of the attempt with the given index; the loop polls,
stops as soon as a non-empty result arrives, and otherwise sleeps and
retries, sleeping once more after the final empty attempt exactly as the
source loop does.  Returns the last fetched result together with the trace
of calls and sleeps. -/
def pollLoop {α : Type} (service : ℕ → List α) (sleep_time_s : ℚ) :
    ℕ → ℕ → List α × List PollEvent
  | 0, _ => ([], [])
  | fuel + 1, attempt =>
      let latest := service attempt
      if latest.isEmpty then
        let rest := pollLoop service sleep_time_s fuel (attempt + 1)
        (rest.1, PollEvent.pollCall attempt :: PollEvent.sleepDelay sleep_time_s :: rest.2)
      else (latest, [PollEvent.pollCall attempt])

/-- Model of `SDLabsWrapper._get_parameters`: run the retry loop from
attempt 0 with `max_retries` attempts.  The subsequent wrapping of each
fetched record into a Recommendation maps the list elementwise and preserves
emptiness, so the records are left abstract. -/
def getParametersModel {α : Type} (service : ℕ → List α) (max_retries : ℕ)
    (sleep_time_s : ℚ) : List α × List PollEvent :=
  pollLoop service sleep_time_s max_retries 0

/-- Message of the usage error raised by `get_new_suggestions` when no
campaign id exists. -/
def usageErrorMsg : String :=
  "Ensure to initialize with initialize_optimization before"

/-- Message of the error raised by `get_new_suggestions` when polling
produced nothing. -/
def noSuggestionsMsg : String :=
  "No recommendations could be fetched. Please check the campaign status in SDLabs"

/-- Model of `SDLabsWrapper.get_new_suggestions`: raise a usage error when
the campaign id is falsy, otherwise poll via `_get_parameters` and raise a
no-suggestions error when the result is empty. -/
def getNewSuggestions {α : Type} (campaign_id : Option String)
    (service : ℕ → List α) (max_retries : ℕ) (sleep_time_s : ℚ) :
    Except String (List α) × List PollEvent :=
  if pyTruthyStr campaign_id = false then (Except.error usageErrorMsg, [])
  else
    let r := getParametersModel service max_retries sleep_time_s
    if r.1.isEmpty then (Except.error noSuggestionsMsg, r.2)
    else (Except.ok r.1, r.2)

/-- Expected polling trace when the first `n` attempts starting at `start`
all come back empty: a poll and a sleep per attempt. -/
def emptyPollTrace (sleep_time_s : ℚ) : ℕ → ℕ → List PollEvent
  | 0, _ => []
  | n + 1, start =>
      PollEvent.pollCall start :: PollEvent.sleepDelay sleep_time_s ::
        emptyPollTrace sleep_time_s n (start + 1)

/-- Number of polling calls in a trace. -/
def pollCount (events : List PollEvent) : ℕ :=
  events.countP (fun e =>
    match e with
    | PollEvent.pollCall _ => true
    | _ => false)

theorem pollCount_emptyPollTrace (s : ℚ) (n start : ℕ) :
    pollCount (emptyPollTrace s n start) = n := by
  induction n generalizing start with
  | zero => rfl
  | succ n ih =>
      unfold emptyPollTrace pollCount
      unfold pollCount at ih
      simp [List.countP_cons, ih]

theorem pollLoop_all_empty {α : Type} (service : ℕ → List α) (s : ℚ)
    (fuel start : ℕ) (hempty : ∀ i, service i = []) :
    pollLoop service s fuel start = ([], emptyPollTrace s fuel start) := by
  induction fuel generalizing start with
  | zero => rfl
  | succ fuel ih =>
      unfold pollLoop emptyPollTrace
      rw [hempty start]
      simp [ih]

theorem pollLoop_stops_early {α : Type} (service : ℕ → List α) (s : ℚ) :
    ∀ (j fuel start : ℕ), j < fuel →
    (∀ i, i < j → service (start + i) = []) → service (start + j) ≠ [] →
    pollLoop service s fuel start =
      (service (start + j),
        emptyPollTrace s j start ++ [PollEvent.pollCall (start + j)]) := by
  intro j
  induction j with
  | zero =>
      intro fuel start hlt _ hne
      match fuel, hlt with
      | fuel + 1, _ =>
        unfold pollLoop
        simp only [Nat.add_zero] at hne
        simp [List.isEmpty_iff, hne, emptyPollTrace]
  | succ j ih =>
      intro fuel start hlt hbefore hne
      match fuel, hlt with
      | fuel + 1, hlt =>
        unfold pollLoop
        have h0 : service start = [] := by
          have := hbefore 0 (Nat.succ_pos j)
          simpa using this
        have hidx : start + 1 + j = start + (j + 1) := by omega
        have hrec := ih fuel (start + 1) (by omega)
          (fun i hi => by
            have := hbefore (i + 1) (by omega)
            rw [show start + 1 + i = start + (i + 1) by omega]
            exact this)
          (by rw [hidx]; exact hne)
        rw [hidx] at hrec
        simp [h0, hrec, emptyPollTrace]

/-- C6.  get_new_suggestions raises a usage error when no campaign id exists;
when every poll returns an empty result it makes exactly max_retries polling
calls with the configured sleep delay between consecutive attempts and then
raises the no-suggestions error; and it stops polling as soon as an attempt
returns a non-empty result, with exactly that many polling calls. -/
theorem c6_get_new_suggestions {α : Type} (service : ℕ → List α)
    (max_retries : ℕ) (s : ℚ) (cid : String) :
    (getNewSuggestions none service max_retries s
        = (Except.error usageErrorMsg, [])) ∧
    ((∀ i, service i = []) → cid ≠ "" → 0 < max_retries →
      getNewSuggestions (some cid) service max_retries s
          = (Except.error noSuggestionsMsg, emptyPollTrace s max_retries 0) ∧
      pollCount (getNewSuggestions (some cid) service max_retries s).2
          = max_retries) ∧
    (∀ j, j < max_retries → (∀ i, i < j → service i = []) → service j ≠ [] →
      cid ≠ "" →
      getNewSuggestions (some cid) service max_retries s
          = (Except.ok (service j),
              emptyPollTrace s j 0 ++ [PollEvent.pollCall j]) ∧
      pollCount (getNewSuggestions (some cid) service max_retries s).2
          = j + 1) := by
  refine ⟨rfl, ?_, ?_⟩
  · intro hempty hcid _
    have hloop := pollLoop_all_empty service s max_retries 0 hempty
    have heq : getNewSuggestions (some cid) service max_retries s
        = (Except.error noSuggestionsMsg, emptyPollTrace s max_retries 0) := by
      unfold getNewSuggestions getParametersModel
      rw [hloop]
      simp [pyTruthyStr, hcid]
    exact ⟨heq, by rw [heq, pollCount_emptyPollTrace]⟩
  · intro j hj hbefore hne hcid
    have hloop := pollLoop_stops_early service s j max_retries 0 hj
      (fun i hi => by simpa using hbefore i hi) (by simpa using hne)
    simp only [Nat.zero_add] at hloop
    have heq : getNewSuggestions (some cid) service max_retries s
        = (Except.ok (service j),
            emptyPollTrace s j 0 ++ [PollEvent.pollCall j]) := by
      unfold getNewSuggestions getParametersModel
      rw [hloop]
      simp [pyTruthyStr, hcid, List.isEmpty_iff, hne]
    refine ⟨heq, ?_⟩
    rw [heq]
    unfold pollCount
    rw [List.countP_append, ← pollCount, pollCount_emptyPollTrace]
    rfl

/-- C6, witness: with an always-empty remote service and three retries the
call raises the no-suggestions error after exactly three polls; with no
campaign id it raises the usage error; with a result arriving at the second
attempt it stops after two polls. -/
theorem c6_witness :
    (getNewSuggestions none (fun _ => ([] : List ℕ)) 3 30
        = (Except.error usageErrorMsg, [])) ∧
    (getNewSuggestions (some "cpg") (fun _ => ([] : List ℕ)) 3 30
        = (Except.error noSuggestionsMsg, emptyPollTrace 30 3 0) ∧
      pollCount (getNewSuggestions (some "cpg") (fun _ => ([] : List ℕ)) 3 30).2 = 3) ∧
    (getNewSuggestions (some "cpg") (fun i => if i < 1 then ([] : List ℕ) else [7]) 3 30
        = (Except.ok [7], emptyPollTrace 30 1 0 ++ [PollEvent.pollCall 1]) ∧
      pollCount (getNewSuggestions (some "cpg")
          (fun i => if i < 1 then ([] : List ℕ) else [7]) 3 30).2 = 2) := by
  refine ⟨(c6_get_new_suggestions (fun _ => ([] : List ℕ)) 3 30 "cpg").1, ?_, ?_⟩
  · exact (c6_get_new_suggestions (fun _ => ([] : List ℕ)) 3 30 "cpg").2.1
      (fun _ => rfl) (by decide) (by decide)
  · exact (c6_get_new_suggestions (fun i => if i < 1 then ([] : List ℕ) else [7])
      3 30 "cpg").2.2 1 (by decide)
      (fun i hi => by
        have h0 : i = 0 := by omega
        rw [h0]
        rfl)
      (by decide) (by decide)

/-- Remote-side summary of a created or listed parameter (id and name). -/
structure RemoteParameterRef where
  id : String
  name : String
deriving DecidableEq

/-- Remote workstation object as returned by the service. -/
structure RemoteWorkstation where
  id : String
  name : String
  parameters : List RemoteParameterRef := []
deriving DecidableEq

/-- One key/value entry of a remote optimizer configuration. -/
structure OptConfEntry where
  key : String
  value : String
deriving DecidableEq

/-- Remote optimizer object as returned by the service. -/
structure RemoteOptimizer where
  id : String
  name : String := ""
  function : String := ""
  configuration : List OptConfEntry := []
deriving DecidableEq

/-- Remote template object as returned by the service. -/
structure RemoteTemplate where
  id : String
  name : String := ""
  budget : ℤ := 0
  optimizer : RemoteOptimizer
deriving DecidableEq

/-- One campaign-state record returned by the campaigns-state query: the
state string and the ids of the campaigns in that state. -/
structure RemoteCampaignState where
  state : String
  campaigns : List String := []
deriving DecidableEq

/-- Payload of a remote parameter-creation call, as assembled by
`_start_optimization` from a configured Parameter: description formatted and
low/high/stride rescaled to service units (stride only when truthy). -/
structure ParameterPayload where
  name : Option String
  type : String
  low_value : Option ℚ
  high_value : Option ℚ
  stride : Option ℚ
  description : Option String
deriving DecidableEq

/-- Assembly of the parameter-creation payload from the source (the
`prm_dict` built in `_start_optimization`). -/
def mkParameterPayload (p : Parameter) : ParameterPayload :=
  { name := p.name
    type := p.type
    description := p.format_sdlabs_description
    low_value := p.low_value.map p.rescale_units_to_sdlabs
    high_value := p.high_value.map p.rescale_units_to_sdlabs
    stride := if pyTruthyQ p.stride then p.stride.map p.rescale_units_to_sdlabs
      else none }

/-- Remote API calls issued by `_start_optimization`, in issue order.  Query
payloads carry the arguments relevant to the claims; creation payloads carry
the configured data they are built from. -/
inductive RemoteCall where
  | workstations_list (group : String)
  | workstation_get (id : String)
  | parameter_create (payload : ParameterPayload)
  | workstation_create (name : String) (measurements : List String)
      (parameterIds : List String)
  | templates_list (group : String)
  | template_get (id : String)
  | template_update (id : String) (budget : ℤ)
  | optimizer_update (id : String) (configuration : List OptConfEntry)
  | parameter_copy (id : String) (name : String)
  | optimizer_create (function : String) (name : String)
      (configuration : List OptConfEntry)
  | objective_create (name : String) (goal : String)
  | mof_create (function : Option String)
  | constraint_create_many (count : ℕ)
  | template_create (name : String) (budget : ℤ) (optimizerId : String)
  | campaigns_state_query (templateId : String)
  | campaign_stop (campaignId : String)
  | settle_sleep (seconds : ℕ)
  | template_run (templateId : String) (preload : Bool)
deriving DecidableEq

/-- Responses of the remote service, supplied as an oracle: list results,
lookups by id, and the objects or ids produced by creation calls. -/
structure RemoteService where
  workstations : List RemoteWorkstation
  workstation_get : String → RemoteWorkstation
  templates : List RemoteTemplate
  template_get : String → RemoteTemplate
  parameter_create_id : ℕ → String
  created_workstation : RemoteWorkstation
  parameter_copy_id : ℕ → String
  optimizer_create_id : String
  created_template : RemoteTemplate
  campaigns_state : String → List RemoteCampaignState
  template_run_id : String

/-- The batch_size / random_seed push of `_start_optimization`: every
configuration entry of the remote optimizer whose key is batch_size or
random_seed has its value replaced by the configured value, stringified. -/
def pushedConfiguration (cfg : OptimizationConfig) (conf : List OptConfEntry) :
    List OptConfEntry :=
  conf.map (fun e =>
    if e.key == "batch_size" then { e with value := toString cfg.batch_size }
    else if e.key == "random_seed" then { e with value := toString cfg.random_seed }
    else e)

/-- One step of the campaign-state loop of `_start_optimization`: for a
running state, adopt the first campaign id when always_restart is false, else
stop every running campaign and sleep two seconds.  Python indexes
`campaigns[0]` and would raise on an empty list; `head?` models that edge as
no adoption. -/
def campaignStep (alwaysRestart : Bool)
    (acc : Option String × List RemoteCall) (st : RemoteCampaignState) :
    Option String × List RemoteCall :=
  if st.state == "running" then
    if alwaysRestart = false then (st.campaigns.head?, acc.2)
    else
      (acc.1, acc.2 ++ st.campaigns.map RemoteCall.campaign_stop ++
        [RemoteCall.settle_sleep 2])
  else acc

/-- Model of `SDLabsWrapper._start_optimization`: look up or create the
workstation, look up or create the template (updating budget and pushing
batch_size/random_seed when reusing), then adopt, stop, or launch a
campaign.  Returns the final campaign id together with the ordered trace of
remote calls. -/
def startOptimization (cfg : OptimizationConfig) (remote : RemoteService) :
    Option String × List RemoteCall :=
  let callsList := [RemoteCall.workstations_list cfg.sdlabs_group_id]
  let foundW := remote.workstations.find? (fun w => w.name == cfg.optimization_name)
  let wstStep : RemoteWorkstation × List RemoteCall :=
    match foundW with
    | some w => (remote.workstation_get w.id,
        callsList ++ [RemoteCall.workstation_get w.id])
    | none =>
        let payloads := cfg.parameters.map mkParameterPayload
        let createdIds := (List.range payloads.length).map remote.parameter_create_id
        let measurements := cfg.objectives.map Objective.name
        (remote.created_workstation,
          callsList ++ payloads.map RemoteCall.parameter_create ++
            [RemoteCall.workstation_create cfg.optimization_name measurements createdIds])
  let workstation := wstStep.1
  let calls2 := wstStep.2 ++ [RemoteCall.templates_list cfg.sdlabs_group_id]
  let tplName := workstation.name ++ " Optimization Template"
  let foundT := remote.templates.find? (fun t => t.name == tplName)
  let tplStep : RemoteTemplate × List RemoteCall :=
    match foundT with
    | some tSummary =>
        let tpl := remote.template_get tSummary.id
        let budgetCalls :=
          if cfg.budget ≠ tpl.budget then [RemoteCall.template_update tSummary.id cfg.budget]
          else []
        (tpl, calls2 ++ [RemoteCall.template_get tSummary.id] ++ budgetCalls ++
          [RemoteCall.optimizer_update tpl.optimizer.id
            (pushedConfiguration cfg tpl.optimizer.configuration)])
    | none =>
        let copyCalls := workstation.parameters.map
          (fun pr => RemoteCall.parameter_copy pr.id pr.name)
        let optConf : List OptConfEntry :=
          [ { key := "batch_size", value := toString cfg.batch_size },
            { key := "random_seed", value := toString cfg.random_seed } ]
        let objCalls := cfg.objectives.map
          (fun o => RemoteCall.objective_create o.name o.goal)
        let mofCalls :=
          if cfg.objectives.length == 1 then []
          else [RemoteCall.mof_create cfg.multi_objective_function]
        let cstrCalls :=
          if cfg.constraints.isEmpty then []
          else [RemoteCall.constraint_create_many cfg.constraints.length]
        (remote.created_template,
          calls2 ++ copyCalls ++
            [RemoteCall.optimizer_create cfg.algorithm.toLower
              (cfg.sdlabs_group_id ++ "-" ++ cfg.algorithm) optConf] ++
            objCalls ++ mofCalls ++ cstrCalls ++
            [RemoteCall.template_create tplName cfg.budget remote.optimizer_create_id])
  let template := tplStep.1
  let calls4 := tplStep.2 ++ [RemoteCall.campaigns_state_query template.id]
  let states := remote.campaigns_state template.id
  let afterStates := states.foldl (campaignStep cfg.always_restart) (none, calls4)
  if pyTruthyStr afterStates.1 then (afterStates.1, afterStates.2)
  else
    (some remote.template_run_id,
      afterStates.2 ++ [RemoteCall.template_run template.id cfg.inherit_data])

/-- Calls contributed by one campaign-state record. -/
def campaignStepCalls (alwaysRestart : Bool) (st : RemoteCampaignState) :
    List RemoteCall :=
  if st.state == "running" then
    if alwaysRestart = false then []
    else st.campaigns.map RemoteCall.campaign_stop ++ [RemoteCall.settle_sleep 2]
  else []

/-- Calls contributed by the whole campaign-state loop. -/
def campaignCalls (alwaysRestart : Bool) : List RemoteCampaignState → List RemoteCall
  | [] => []
  | st :: rest => campaignStepCalls alwaysRestart st ++ campaignCalls alwaysRestart rest

/-- Calls that may appear after the campaigns-state query: campaign stops,
the settling sleep, and the campaign launch. -/
def isCampaignTailCall : RemoteCall → Bool
  | RemoteCall.campaign_stop _ => true
  | RemoteCall.settle_sleep _ => true
  | RemoteCall.template_run _ _ => true
  | _ => false

/-- Remote calls that create a resource (workstation, parameter, template,
optimizer, objective, multi-objective function, or constraint). -/
def isCreationCall : RemoteCall → Bool
  | RemoteCall.parameter_create _ => true
  | RemoteCall.workstation_create _ _ _ => true
  | RemoteCall.parameter_copy _ _ => true
  | RemoteCall.optimizer_create _ _ _ => true
  | RemoteCall.objective_create _ _ => true
  | RemoteCall.mof_create _ => true
  | RemoteCall.constraint_create_many _ => true
  | RemoteCall.template_create _ _ _ => true
  | _ => false

/-- Calls admissible on the full-reuse provisioning path: lookups, the
budget update (only when the budget differs), the batch/seed push, and
campaign state queries and operations. -/
def isAllowedReuseCall (budgetDiffers : Bool) : RemoteCall → Bool
  | RemoteCall.workstations_list _ => true
  | RemoteCall.workstation_get _ => true
  | RemoteCall.templates_list _ => true
  | RemoteCall.template_get _ => true
  | RemoteCall.template_update _ _ => budgetDiffers
  | RemoteCall.optimizer_update _ _ => true
  | RemoteCall.campaigns_state_query _ => true
  | RemoteCall.campaign_stop _ => true
  | RemoteCall.settle_sleep _ => true
  | RemoteCall.template_run _ _ => true
  | _ => false

theorem campaignStep_snd (alwaysRestart : Bool)
    (acc : Option String × List RemoteCall) (st : RemoteCampaignState) :
    (campaignStep alwaysRestart acc st).2 = acc.2 ++ campaignStepCalls alwaysRestart st := by
  unfold campaignStep campaignStepCalls
  cases hst : (st.state == "running")
  · simp [hst]
  · cases har : alwaysRestart
    · simp [hst, har]
    · simp [hst, har]

theorem campaignFold_snd (alwaysRestart : Bool) :
    ∀ (states : List RemoteCampaignState) (x : Option String) (cs : List RemoteCall),
    (states.foldl (campaignStep alwaysRestart) (x, cs)).2 =
      cs ++ campaignCalls alwaysRestart states := by
  intro states
  induction states with
  | nil => intro x cs; simp [campaignCalls]
  | cons st rest ih =>
      intro x cs
      rw [List.foldl_cons]
      have hpair : campaignStep alwaysRestart (x, cs) st =
          ((campaignStep alwaysRestart (x, cs) st).1,
            (campaignStep alwaysRestart (x, cs) st).2) := rfl
      rw [hpair, ih, campaignStep_snd]
      simp [campaignCalls]

theorem campaignCalls_tail (alwaysRestart : Bool)
    (states : List RemoteCampaignState) :
    ∀ c ∈ campaignCalls alwaysRestart states, isCampaignTailCall c = true := by
  induction states with
  | nil => intro c hc; simp [campaignCalls] at hc
  | cons st rest ih =>
      intro c hc
      rw [campaignCalls, List.mem_append] at hc
      rcases hc with hc | hc
      · unfold campaignStepCalls at hc
        rcases hstate : (st.state == "running") with _ | _ <;> rw [hstate] at hc
        · simp at hc
        · rcases har : alwaysRestart with _ | _ <;> rw [har] at hc
          · simp at hc
          · rcases List.mem_append.mp hc with hc2 | hc2
            · obtain ⟨cid, _, hcid⟩ := List.mem_map.mp hc2
              rw [← hcid]; rfl
            · rw [List.mem_singleton.mp hc2]; rfl
      · exact ih c hc

theorem campaignTail_not_creation (c : RemoteCall)
    (h : isCampaignTailCall c = true) : isCreationCall c = false := by
  cases c <;> simp_all [isCampaignTailCall, isCreationCall]

theorem campaignTail_allowed (b : Bool) (c : RemoteCall)
    (h : isCampaignTailCall c = true) : isAllowedReuseCall b c = true := by
  cases c <;> simp_all [isCampaignTailCall, isAllowedReuseCall]

theorem campaignTail_not_update (c : RemoteCall) (i : String) (b : ℤ)
    (h : isCampaignTailCall c = true) : c ≠ RemoteCall.template_update i b := by
  cases c <;> simp_all [isCampaignTailCall]

theorem campaignCallsRun_tail (alwaysRestart : Bool)
    (states : List RemoteCampaignState) (tid : String) (preload : Bool) :
    ∀ c ∈ campaignCalls alwaysRestart states ++
        [RemoteCall.template_run tid preload],
      isCampaignTailCall c = true := by
  intro c hc
  rcases List.mem_append.mp hc with hc2 | hc2
  · exact campaignCalls_tail _ _ c hc2
  · rw [List.mem_singleton.mp hc2]; rfl

/-- Canonical shape of the call trace on the full-reuse path: four lookups,
the conditional budget update, the batch/seed push, the campaigns-state
query, then only campaign operations. -/
theorem startOptimization_reuse_calls (cfg : OptimizationConfig)
    (remote : RemoteService) (w : RemoteWorkstation) (t : RemoteTemplate)
    (hw : remote.workstations.find? (fun x => x.name == cfg.optimization_name) = some w)
    (ht : remote.templates.find?
        (fun x => x.name == (remote.workstation_get w.id).name ++ " Optimization Template")
      = some t) :
    ∃ tail, (∀ c ∈ tail, isCampaignTailCall c = true) ∧
      (startOptimization cfg remote).2 =
        [RemoteCall.workstations_list cfg.sdlabs_group_id,
         RemoteCall.workstation_get w.id,
         RemoteCall.templates_list cfg.sdlabs_group_id,
         RemoteCall.template_get t.id] ++
        (if cfg.budget ≠ (remote.template_get t.id).budget
          then [RemoteCall.template_update t.id cfg.budget] else []) ++
        [RemoteCall.optimizer_update (remote.template_get t.id).optimizer.id
            (pushedConfiguration cfg (remote.template_get t.id).optimizer.configuration),
         RemoteCall.campaigns_state_query (remote.template_get t.id).id] ++ tail := by
  unfold startOptimization
  simp only [hw, ht]
  split <;> split
  · refine ⟨campaignCalls cfg.always_restart
      (remote.campaigns_state (remote.template_get t.id).id),
      campaignCalls_tail _ _, ?_⟩
    rw [campaignFold_snd]
    simp
  · refine ⟨campaignCalls cfg.always_restart
        (remote.campaigns_state (remote.template_get t.id).id) ++
        [RemoteCall.template_run (remote.template_get t.id).id cfg.inherit_data],
      campaignCallsRun_tail _ _ _ _, ?_⟩
    rw [campaignFold_snd]
    simp
  · refine ⟨campaignCalls cfg.always_restart
      (remote.campaigns_state (remote.template_get t.id).id),
      campaignCalls_tail _ _, ?_⟩
    rw [campaignFold_snd]
    simp
  · refine ⟨campaignCalls cfg.always_restart
        (remote.campaigns_state (remote.template_get t.id).id) ++
        [RemoteCall.template_run (remote.template_get t.id).id cfg.inherit_data],
      campaignCallsRun_tail _ _ _ _, ?_⟩
    rw [campaignFold_snd]
    simp

/-- C7.  When a workstation named optimization_name and a template named
"{workstation.name} Optimization Template" already exist remotely,
provisioning issues no creation call for workstation, parameters, template,
optimizer, objectives, multi-objective-function, or constraints; the
template update appears exactly when the configured budget differs from the
remote budget; the batch_size/random_seed push into the optimizer
configuration is always issued; and every issued call is a lookup, one of
those two updates, or a campaign state query or operation. -/
theorem c7_reuse_no_creation_calls (cfg : OptimizationConfig)
    (remote : RemoteService) (w : RemoteWorkstation) (t : RemoteTemplate)
    (hw : remote.workstations.find? (fun x => x.name == cfg.optimization_name)
      = some w)
    (ht : remote.templates.find?
        (fun x => x.name == (remote.workstation_get w.id).name ++ " Optimization Template")
      = some t) :
    (∀ c ∈ (startOptimization cfg remote).2, isCreationCall c = false) ∧
    ((RemoteCall.template_update t.id cfg.budget ∈ (startOptimization cfg remote).2) ↔
      cfg.budget ≠ (remote.template_get t.id).budget) ∧
    RemoteCall.optimizer_update (remote.template_get t.id).optimizer.id
        (pushedConfiguration cfg (remote.template_get t.id).optimizer.configuration)
      ∈ (startOptimization cfg remote).2 ∧
    (∀ c ∈ (startOptimization cfg remote).2,
      isAllowedReuseCall (decide (cfg.budget ≠ (remote.template_get t.id).budget)) c
        = true) := by
  obtain ⟨tail, htail, hcalls⟩ := startOptimization_reuse_calls cfg remote w t hw ht
  refine ⟨?_, ?_, ?_, ?_⟩
  · intro c hc
    rw [hcalls] at hc
    rcases List.mem_append.mp hc with h1 | htl
    · rcases List.mem_append.mp h1 with h2 | hB
      · rcases List.mem_append.mp h2 with hA | hIF
        · simp only [List.mem_cons, List.mem_singleton, List.not_mem_nil,
            or_false] at hA
          rcases hA with h | h | h | h <;> rw [h] <;> rfl
        · by_cases hbud : cfg.budget ≠ (remote.template_get t.id).budget
          · rw [if_pos hbud] at hIF
            rw [List.mem_singleton.mp hIF]
            rfl
          · rw [if_neg hbud] at hIF
            exact absurd hIF (List.not_mem_nil c)
      · simp only [List.mem_cons, List.mem_singleton, List.not_mem_nil,
          or_false] at hB
        rcases hB with h | h <;> rw [h] <;> rfl
    · exact campaignTail_not_creation c (htail c htl)
  · constructor
    · intro hmem
      by_cases hbud : cfg.budget ≠ (remote.template_get t.id).budget
      · exact hbud
      · exfalso
        rw [hcalls, if_neg hbud] at hmem
        rcases List.mem_append.mp hmem with h1 | htl
        · rcases List.mem_append.mp h1 with h2 | hB
          · rcases List.mem_append.mp h2 with hA | hIF
            · simp at hA
            · simp at hIF
          · simp at hB
        · exact (campaignTail_not_update _ t.id cfg.budget (htail _ htl)) rfl
    · intro hbud
      rw [hcalls, if_pos hbud]
      simp
  · rw [hcalls]
    simp
  · intro c hc
    rw [hcalls] at hc
    rcases List.mem_append.mp hc with h1 | htl
    · rcases List.mem_append.mp h1 with h2 | hB
      · rcases List.mem_append.mp h2 with hA | hIF
        · simp only [List.mem_cons, List.mem_singleton, List.not_mem_nil,
            or_false] at hA
          rcases hA with h | h | h | h <;> rw [h] <;> rfl
        · by_cases hbud : cfg.budget ≠ (remote.template_get t.id).budget
          · rw [if_pos hbud] at hIF
            rw [List.mem_singleton.mp hIF]
            simp [isAllowedReuseCall, hbud]
          · rw [if_neg hbud] at hIF
            exact absurd hIF (List.not_mem_nil c)
      · simp only [List.mem_cons, List.mem_singleton, List.not_mem_nil,
          or_false] at hB
        rcases hB with h | h <;> rw [h] <;> rfl
    · exact campaignTail_allowed _ c (htail c htl)

/-- Concrete remote workstation named after the default optimization name. -/
def c7Workstation : RemoteWorkstation := { id := "wst1", name := "SampleOptimization" }

/-- Concrete remote optimizer with batch and seed configuration entries. -/
def c7Optimizer : RemoteOptimizer :=
  { id := "opt1"
    configuration :=
      [ { key := "batch_size", value := "4" },
        { key := "random_seed", value := "7" } ] }

/-- Concrete remote template matching the reuse naming convention. -/
def c7Template : RemoteTemplate :=
  { id := "tpl1"
    name := "SampleOptimization Optimization Template"
    budget := 20
    optimizer := c7Optimizer }

/-- Concrete remote service holding the workstation and template above. -/
def c7Remote : RemoteService :=
  { workstations := [c7Workstation]
    workstation_get := fun _ => c7Workstation
    templates := [c7Template]
    template_get := fun _ => c7Template
    parameter_create_id := fun _ => "prm-new"
    created_workstation := c7Workstation
    parameter_copy_id := fun _ => "prm-copy"
    optimizer_create_id := "opt-new"
    created_template := c7Template
    campaigns_state := fun _ => []
    template_run_id := "cpg1" }

/-- C7, witness: with the default configuration against the remote service
above, provisioning issues no creation call and does issue the batch/seed
push into the remote optimizer configuration. -/
theorem c7_witness :
    (∀ c ∈ (startOptimization { } c7Remote).2, isCreationCall c = false) ∧
    RemoteCall.optimizer_update c7Template.optimizer.id
        (pushedConfiguration { } c7Template.optimizer.configuration)
      ∈ (startOptimization { } c7Remote).2 := by
  have h := c7_reuse_no_creation_calls { } c7Remote c7Workstation c7Template
    (by rfl) (by rfl)
  exact ⟨h.1, h.2.2.1⟩
